import Mathlib

/-!
Shallow embedding of `ext/nio4r/selector.c` (the NIO::Selector C extension).

State is passed explicitly. Ruby `VALUE` results that can be `Qnil` are
modelled with `Option`; Ruby exceptions and C undefined behavior are modelled
with an `Except` result paired with the state at the point of the event. The
libev engine is an external collaborator: one `ev_loop(.., EVLOOP_ONESHOT)`
iteration is modelled as a list of engine events (ready watcher, wakeup pipe
readable, timer fired), each of which invokes the corresponding C callback.
Timeouts are `NUM2DBL` doubles in the source; they are modelled as rationals,
which is exact for every comparison the code performs.
-/

set_option autoImplicit false

/-- Ruby exception classes raised by `selector.c`, with the exact messages. -/
inductive RubyError where
  | ArgumentError (msg : String)
  | IOError (msg : String)
deriving DecidableEq, Repr

/-- Outcome of running a piece of C code: a normal value, a raised Ruby
exception, or C undefined behavior (a failed `assert`, or invoking libev on
the nulled `ev_loop` handle). -/
inductive ExecError where
  | raised (e : RubyError)
  | undefinedBehavior (msg : String)
deriving DecidableEq, Repr

/-- Result of an embedded C function. -/
abbrev ExecResult (α : Type) : Type := Except ExecError α

/-- Modelled from the spec: the per-registration `NIO::Monitor` record
(`monitor.c` is not part of the sources; the spec specifies Monitor only as
an external collaborator holding the handle, its interest set, its
last-observed readiness flags, and exposing `close(cancel_pending)`).
`closeCancelPending` records the argument of the `close` call, if any. The
opaque back-reference to the owning Selector is not represented. -/
structure NIO_Monitor where
  io : Nat
  interests : Nat
  revents : Nat
  monClosed : Bool
  closeCancelPending : Option Bool
deriving DecidableEq, Repr

/-- Modelled from the spec: `Monitor.new(io, interests, selector)` as invoked
by `rb_class_new_instance` in `NIO_Selector_register_synchronized`. -/
def NIO_Monitor_new (io interests : Nat) : NIO_Monitor :=
  { io := io, interests := interests, revents := 0, monClosed := false,
    closeCancelPending := none }

/-- Modelled from the spec: `Monitor#close(cancel_pending)` as invoked by
`rb_funcall(monitor, rb_intern("close"), 1, Qfalse)` in
`NIO_Selector_deregister_synchronized`.  It marks the monitor closed and
records the `cancel_pending` argument it received. -/
def NIO_Monitor_close (cancel : Bool) (m : NIO_Monitor) : NIO_Monitor :=
  { m with monClosed := true, closeCancelPending := some cancel }

/-- The `selectables` Ruby hash (handle identity to Monitor), modelled as an
association list in insertion order. -/
abbrev SelTable : Type := List (Nat × NIO_Monitor)

/-- `rb_hash_lookup(selectables, io)`: first entry with the given key,
`none` for `Qnil`. -/
def lookupTable (t : SelTable) (k : Nat) : Option NIO_Monitor :=
  match t with
  | [] => none
  | (k2, m) :: rest => if k2 = k then some m else lookupTable rest k

/-- `rb_hash_aset(selectables, io, monitor)`: replace the binding if the key
is present, otherwise append it (Ruby hashes keep insertion order). -/
def insertTable (t : SelTable) (k : Nat) (m : NIO_Monitor) : SelTable :=
  match t with
  | [] => [(k, m)]
  | (k2, m2) :: rest =>
      if k2 = k then (k2, m) :: rest else (k2, m2) :: insertTable rest k m

/-- `rb_hash_delete(selectables, io)` removal effect: drop the key. -/
def deleteTable (t : SelTable) (k : Nat) : SelTable :=
  t.filter (fun p => p.1 != k)

/-- The `struct NIO_Selector` native state together with the Ruby-visible
pieces the claims are about.  `ev_loop` is `true` while the libev handle is
non-null; the wakeup pipe is modelled by its byte count plus open flags for
the two endpoints; `ready_array` is `none` for `Qnil`; `timer_repeat` and
`timer_active` model the `ev_timer`. -/
structure NIO_Selector where
  ev_loop : Bool
  timer_repeat : ℚ
  timer_active : Bool
  wakeup_reader_open : Bool
  wakeup_writer_open : Bool
  wakeup_pipe : Nat
  closed : Bool
  selecting : Bool
  ready_count : Nat
  ready_array : Option (List NIO_Monitor)
  selectables : SelTable
deriving DecidableEq, Repr

/-- `NIO_Selector_allocate`: fresh selector (pipe created with both ends open
and empty, live engine handle, timer initialized but not started, all flags
and counters zeroed, `ready_array = Qnil`, empty `selectables` hash). -/
def NIO_Selector_allocate : NIO_Selector :=
  { ev_loop := true, timer_repeat := 0, timer_active := false,
    wakeup_reader_open := true, wakeup_writer_open := true, wakeup_pipe := 0,
    closed := false, selecting := false, ready_count := 0,
    ready_array := none, selectables := [] }

/-- The reentrancy-tracking state of `NIO_Selector_synchronize`: the
`lock_holder` instance variable (`none` for `Qnil`) and whether the `lock`
Mutex is currently locked. -/
structure LockState where
  lock_holder : Option Nat
  mutex_locked : Bool
deriving DecidableEq, Repr

/-- `NIO_Selector_synchronize`: if the calling thread `tid` is not the
recorded `lock_holder`, lock the mutex (the big-step model collapses the
blocking wait: the call returns once the lock has been acquired), record the
caller as holder, run `func`, and via `rb_ensure` unconditionally clear the
holder and unlock, whether `func` returned or raised.  If the caller already
is the holder, run `func` directly; on this path the C function executes
`func(args);` and then falls off the end of a non-void function without a
return statement, so the value the caller receives is unspecified, modelled
as `none` (a normal value `a` coming out of the locking path is `some a`). -/
def NIO_Selector_synchronize {σ α : Type} (tid : Nat)
    (func : σ → ExecResult α × σ) (ls : LockState) (st : σ) :
    ExecResult (Option α) × LockState × σ :=
  if ls.lock_holder ≠ some tid then
    let (r, st2) := func st
    (r.map some, { lock_holder := none, mutex_locked := false }, st2)
  else
    let (r, st2) := func st
    (r.map (fun _ => none), ls, st2)

/-- `NIO_Selector_register_synchronized` (the body run under the lock):
raise `ArgumentError` if the handle is already in `selectables`, otherwise
build a new Monitor, store it, and return it. -/
def NIO_Selector_register_synchronized (io interests : Nat) (s : NIO_Selector) :
    ExecResult NIO_Monitor × NIO_Selector :=
  match lookupTable s.selectables io with
  | some _ =>
      (.error (.raised (.ArgumentError "this IO is already registered with selector")), s)
  | none =>
      let monitor := NIO_Monitor_new io interests
      (.ok monitor, { s with selectables := insertTable s.selectables io monitor })

/-- `NIO_Selector_deregister_synchronized`: `rb_hash_delete` the handle; if a
Monitor was bound, call its `close` with `Qfalse` and return it, otherwise
return `Qnil`. -/
def NIO_Selector_deregister_synchronized (io : Nat) (s : NIO_Selector) :
    ExecResult (Option NIO_Monitor) × NIO_Selector :=
  match lookupTable s.selectables io with
  | some m =>
      (.ok (some (NIO_Monitor_close false m)),
       { s with selectables := deleteTable s.selectables io })
  | none => (.ok none, s)

/-- `NIO_Selector_is_registered`: `selectables.has_key?(io)`; reads only the
`selectables` hash and mutates nothing. -/
def NIO_Selector_is_registered (io : Nat) (s : NIO_Selector) : Bool :=
  (lookupTable s.selectables io).isSome

/-- `NIO_Selector_wakeup`: raise `IOError` if the selector is closed,
otherwise `write(selector->wakeup_writer, "\0", 1)` — exactly one byte is
appended to the pipe. -/
def NIO_Selector_wakeup (s : NIO_Selector) : ExecResult Unit × NIO_Selector :=
  if s.closed then
    (.error (.raised (.IOError "selector is closed")), s)
  else
    (.ok (), { s with wakeup_pipe := s.wakeup_pipe + 1 })

/-- `NIO_Selector_wakeup_callback`: set `selecting = 0` and drain the
non-blocking read end (`while(read(..) > 0);`), leaving the pipe empty. -/
def NIO_Selector_wakeup_callback (s : NIO_Selector) : NIO_Selector :=
  { s with selecting := false, wakeup_pipe := 0 }

/-- `NIO_Selector_shutdown`: destroy and null the engine handle if it is
live; then, unless already closed, close both pipe endpoints and mark the
selector closed. -/
def NIO_Selector_shutdown (s : NIO_Selector) : NIO_Selector :=
  let s1 := if s.ev_loop then { s with ev_loop := false } else s
  if s1.closed then s1
  else
    { s1 with wakeup_reader_open := false, wakeup_writer_open := false,
              closed := true }

/-- `NIO_Selector_close`: run the shutdown path and return `Qnil`; it never
raises. -/
def NIO_Selector_close (s : NIO_Selector) : ExecResult Unit × NIO_Selector :=
  (.ok (), NIO_Selector_shutdown s)

/-- `NIO_Selector_closed`: report the `closed` flag. -/
def NIO_Selector_closed (s : NIO_Selector) : Bool :=
  s.closed

/-- One event delivered by the libev `ev_loop(.., EVLOOP_ONESHOT)` iteration:
a registered watcher became ready (carrying its Monitor and the observed
`revents` flags), the wakeup pipe became readable, or the timer fired. -/
inductive EngineEvent where
  | ready (m : NIO_Monitor) (revents : Nat)
  | wakeupFired
  | timerFired
deriving DecidableEq, Repr

/-- `NIO_Selector_monitor_callback`: increment `ready_count`, record the
observed readiness flags on the Monitor, then either yield the Monitor to
the block (third component: the monitors yielded) or push it onto
`ready_array` (asserting that `ready_array` is not `Qnil`). -/
def NIO_Selector_monitor_callback (blockGiven : Bool) (m : NIO_Monitor)
    (revents : Nat) (s : NIO_Selector) :
    ExecResult Unit × NIO_Selector × List NIO_Monitor :=
  let s1 := { s with ready_count := s.ready_count + 1 }
  let m1 := { m with revents := revents }
  if blockGiven then
    (.ok (), s1, [m1])
  else
    match s1.ready_array with
    | none => (.error (.undefinedBehavior "assert ready_array not nil failed"), s1, [])
    | some arr => (.ok (), { s1 with ready_array := some (arr ++ [m1]) }, [])

/-- Dispatch one engine event to its C callback.
`NIO_Selector_timeout_callback` is an intentional no-op. -/
def NIO_Selector_dispatch (blockGiven : Bool) (ev : EngineEvent) (s : NIO_Selector) :
    ExecResult Unit × NIO_Selector × List NIO_Monitor :=
  match ev with
  | .timerFired => (.ok (), s, [])
  | .wakeupFired => (.ok (), NIO_Selector_wakeup_callback s, [])
  | .ready m revents => NIO_Selector_monitor_callback blockGiven m revents s

/-- One `ev_loop(selector->ev_loop, EVLOOP_ONESHOT)` iteration: deliver the
pending engine events in order, accumulating the monitors yielded to the
block; stop at the first undefined behavior. -/
def NIO_Selector_ev_run (blockGiven : Bool) (events : List EngineEvent)
    (s : NIO_Selector) : ExecResult Unit × NIO_Selector × List NIO_Monitor :=
  match events with
  | [] => (.ok (), s, [])
  | ev :: rest =>
      match NIO_Selector_dispatch blockGiven ev s with
      | (.ok _, s1, ys) =>
          match NIO_Selector_ev_run blockGiven rest s1 with
          | (r, s2, ys2) => (r, s2, ys ++ ys2)
      | (.error e, s1, ys) => (.error e, s1, ys)

/-- `NIO_Selector_run` (the `HAVE_RB_THREAD_BLOCKING_REGION` build): set
`selecting = 1`; arm the repeat timer for `timeout + 0.0001` when a timeout
was given, else stop the timer; run one engine iteration; then capture
`ready_count` as the result and zero `selecting` and `ready_count`.  Every
engine call passes `selector->ev_loop`, so reaching this point with the
handle nulled is undefined behavior. -/
def NIO_Selector_run (blockGiven : Bool) (timeout : Option ℚ)
    (events : List EngineEvent) (s : NIO_Selector) :
    ExecResult Nat × NIO_Selector × List NIO_Monitor :=
  let s1 := { s with selecting := true }
  if s1.ev_loop = false then
    (.error (.undefinedBehavior "engine handle is null"), s1, [])
  else
    let s2 :=
      match timeout with
      | some t => { s1 with timer_repeat := t + 1 / 10000, timer_active := true }
      | none => { s1 with timer_active := false }
    match NIO_Selector_ev_run blockGiven events s2 with
    | (.ok _, s3, ys) =>
        (.ok s3.ready_count,
         { s3 with selecting := false, ready_count := 0 }, ys)
    | (.error e, s3, ys) => (.error e, s3, ys)

/-- Result of `NIO_Selector_select`: an integer ready count, an array of
ready Monitors, or `Qnil`. -/
inductive SelectValue where
  | count (n : Nat)
  | monitors (ms : List NIO_Monitor)
  | noActivity
deriving DecidableEq, Repr

/-- `NIO_Selector_select_synchronized`: allocate a fresh `ready_array` when
no block was given; run the loop; with a block return the count when it is
positive; without a block hand back the accumulated `ready_array` (clearing
the field) when the count is positive; otherwise clear the field and return
`Qnil`. -/
def NIO_Selector_select_synchronized (blockGiven : Bool) (timeout : Option ℚ)
    (events : List EngineEvent) (s : NIO_Selector) :
    ExecResult SelectValue × NIO_Selector × List NIO_Monitor :=
  let s1 := if blockGiven then s else { s with ready_array := some [] }
  match NIO_Selector_run blockGiven timeout events s1 with
  | (.ok ready, s2, ys) =>
      if ready > 0 then
        if blockGiven then (.ok (.count ready), s2, ys)
        else
          match s2.ready_array with
          | some arr => (.ok (.monitors arr), { s2 with ready_array := none }, ys)
          | none => (.ok .noActivity, { s2 with ready_array := none }, ys)
      else
        (.ok .noActivity, { s2 with ready_array := none }, ys)
  | (.error e, s2, ys) => (.error e, s2, ys)

/-- Does `rb_scan_args` plus the guard reject the timeout?
`timeout != Qnil && NUM2DBL(timeout) < 0`. -/
def negTimeout (timeout : Option ℚ) : Bool :=
  match timeout with
  | some t => decide (t < 0)
  | none => false

/-- The body handed to `NIO_Selector_synchronize` by `NIO_Selector_select`,
threading the trace of monitors yielded to the block through the state. -/
def NIO_Selector_select_body (blockGiven : Bool) (timeout : Option ℚ)
    (events : List EngineEvent) (st : NIO_Selector × List NIO_Monitor) :
    ExecResult SelectValue × NIO_Selector × List NIO_Monitor :=
  let o := NIO_Selector_select_synchronized blockGiven timeout events st.1
  (o.1, o.2.1, st.2 ++ o.2.2)

/-- The critical-section part of `NIO_Selector_select`, entered only after
the timeout guard. -/
def NIO_Selector_select_locked (tid : Nat) (blockGiven : Bool)
    (timeout : Option ℚ) (events : List EngineEvent) (ls : LockState)
    (s : NIO_Selector) :
    ExecResult (Option SelectValue) × LockState × NIO_Selector × List NIO_Monitor :=
  NIO_Selector_synchronize tid
    (NIO_Selector_select_body blockGiven timeout events) ls (s, [])

/-- `NIO_Selector_select`: scan the optional timeout argument, raise
`ArgumentError` when it is negative — before any locking or engine work —
and otherwise run `NIO_Selector_select_synchronized` inside the critical
section. -/
def NIO_Selector_select (tid : Nat) (blockGiven : Bool) (timeout : Option ℚ)
    (events : List EngineEvent) (ls : LockState) (s : NIO_Selector) :
    ExecResult (Option SelectValue) × LockState × NIO_Selector × List NIO_Monitor :=
  if negTimeout timeout then
    (.error (.raised (.ArgumentError "time interval must be positive")), ls, s, [])
  else
    NIO_Selector_select_locked tid blockGiven timeout events ls s

/-- The monitors produced by the ready events of one engine iteration, each
with its observed readiness flags recorded, in delivery order. -/
def readyMonitors (events : List EngineEvent) : List NIO_Monitor :=
  events.filterMap (fun ev =>
    match ev with
    | .ready m revents => some { m with revents := revents }
    | _ => none)

/-- Number of ready events in one engine iteration. -/
def countReady (events : List EngineEvent) : Nat :=
  (readyMonitors events).length

/-- Iterated `NIO_Selector_wakeup`: `n` wakeup calls in sequence, stopping
at the first error. -/
def wakeupN : Nat → NIO_Selector → ExecResult Unit × NIO_Selector
  | 0, s => (.ok (), s)
  | n + 1, s =>
      match NIO_Selector_wakeup s with
      | (.ok _, s1) => wakeupN n s1
      | (.error e, s1) => (.error e, s1)

/-- A concrete selector with an allocated (empty) ready array, used by the
witnesses. -/
def selWithArray : NIO_Selector :=
  { NIO_Selector_allocate with ready_array := some [] }

/-- Concrete event list used by the witnesses: one ready handle and a timer
fire. -/
def twoEvents : List EngineEvent :=
  [EngineEvent.ready (NIO_Monitor_new 3 1) 5, EngineEvent.timerFired]

/-- A concrete selector whose table holds handle 3, used by the witnesses. -/
def regSel : NIO_Selector :=
  { NIO_Selector_allocate with selectables := [(3, NIO_Monitor_new 3 1)] }

/-- The lock state of a freshly initialized selector: no holder, mutex
free. -/
def lock0 : LockState :=
  { lock_holder := none, mutex_locked := false }

/-- A selector that has been closed: the engine handle is nulled, both pipe
endpoints are closed and the `closed` flag is set. -/
def closedSel : NIO_Selector :=
  NIO_Selector_shutdown NIO_Selector_allocate

/-! Helper lemmas about the registration table and the engine iteration. -/

theorem lookupTable_insertTable_self (t : SelTable) (k : Nat) (m : NIO_Monitor) :
    lookupTable (insertTable t k m) k = some m := by
  induction t with
  | nil => simp [insertTable, lookupTable]
  | cons p rest ih =>
      by_cases h : p.1 = k
      · simp [insertTable, lookupTable, h]
      · simp [insertTable, lookupTable, h, ih]

theorem lookupTable_deleteTable_self (t : SelTable) (k : Nat) :
    lookupTable (deleteTable t k) k = none := by
  induction t with
  | nil => simp [deleteTable, lookupTable]
  | cons p rest ih =>
      by_cases h : p.1 = k
      · simpa [deleteTable, h] using ih
      · simpa [deleteTable, lookupTable, h] using ih

theorem readyMonitors_nil : readyMonitors [] = [] := rfl

theorem readyMonitors_cons_ready (m : NIO_Monitor) (r : Nat) (rest : List EngineEvent) :
    readyMonitors (.ready m r :: rest) = { m with revents := r } :: readyMonitors rest := by
  simp [readyMonitors]

theorem readyMonitors_cons_wakeup (rest : List EngineEvent) :
    readyMonitors (.wakeupFired :: rest) = readyMonitors rest := by
  simp [readyMonitors]

theorem readyMonitors_cons_timer (rest : List EngineEvent) :
    readyMonitors (.timerFired :: rest) = readyMonitors rest := by
  simp [readyMonitors]

theorem countReady_cons_ready (m : NIO_Monitor) (r : Nat) (rest : List EngineEvent) :
    countReady (.ready m r :: rest) = countReady rest + 1 := by
  simp [countReady, readyMonitors_cons_ready]

theorem countReady_cons_wakeup (rest : List EngineEvent) :
    countReady (.wakeupFired :: rest) = countReady rest := by
  simp [countReady, readyMonitors_cons_wakeup]

theorem countReady_cons_timer (rest : List EngineEvent) :
    countReady (.timerFired :: rest) = countReady rest := by
  simp [countReady, readyMonitors_cons_timer]

theorem dispatch_preserves (b : Bool) (ev : EngineEvent) (s : NIO_Selector) :
    (NIO_Selector_dispatch b ev s).2.1.closed = s.closed ∧
    (NIO_Selector_dispatch b ev s).2.1.ev_loop = s.ev_loop ∧
    (NIO_Selector_dispatch b ev s).2.1.timer_repeat = s.timer_repeat ∧
    (NIO_Selector_dispatch b ev s).2.1.timer_active = s.timer_active ∧
    (NIO_Selector_dispatch b ev s).2.1.selectables = s.selectables ∧
    (NIO_Selector_dispatch b ev s).2.1.wakeup_reader_open = s.wakeup_reader_open ∧
    (NIO_Selector_dispatch b ev s).2.1.wakeup_writer_open = s.wakeup_writer_open := by
  cases ev with
  | timerFired => simp [NIO_Selector_dispatch]
  | wakeupFired => simp [NIO_Selector_dispatch, NIO_Selector_wakeup_callback]
  | ready m r =>
      simp only [NIO_Selector_dispatch, NIO_Selector_monitor_callback]
      by_cases hb : b
      · simp [hb]
      · simp only [hb, if_false]
        cases h : s.ready_array <;> simp [h]

theorem ev_run_preserves (b : Bool) (events : List EngineEvent) (s : NIO_Selector) :
    (NIO_Selector_ev_run b events s).2.1.closed = s.closed ∧
    (NIO_Selector_ev_run b events s).2.1.ev_loop = s.ev_loop ∧
    (NIO_Selector_ev_run b events s).2.1.timer_repeat = s.timer_repeat ∧
    (NIO_Selector_ev_run b events s).2.1.timer_active = s.timer_active ∧
    (NIO_Selector_ev_run b events s).2.1.selectables = s.selectables ∧
    (NIO_Selector_ev_run b events s).2.1.wakeup_reader_open = s.wakeup_reader_open ∧
    (NIO_Selector_ev_run b events s).2.1.wakeup_writer_open = s.wakeup_writer_open := by
  induction events generalizing s with
  | nil => simp [NIO_Selector_ev_run]
  | cons ev rest ih =>
      have hd := dispatch_preserves b ev s
      simp only [NIO_Selector_ev_run]
      rcases hdisp : NIO_Selector_dispatch b ev s with ⟨r, s1, ys⟩
      rw [hdisp] at hd
      cases r with
      | ok u =>
          have ih1 := ih s1
          rcases hrun : NIO_Selector_ev_run b rest s1 with ⟨r2, s2, ys2⟩
          rw [hrun] at ih1
          simp_all
      | error e => simp_all

theorem ev_run_true_spec (events : List EngineEvent) (s : NIO_Selector) :
    (NIO_Selector_ev_run true events s).1 = .ok () ∧
    (NIO_Selector_ev_run true events s).2.1.ready_count
      = s.ready_count + countReady events ∧
    (NIO_Selector_ev_run true events s).2.1.ready_array = s.ready_array ∧
    (NIO_Selector_ev_run true events s).2.2 = readyMonitors events := by
  induction events generalizing s with
  | nil => simp [NIO_Selector_ev_run, countReady, readyMonitors]
  | cons ev rest ih =>
      cases ev with
      | timerFired =>
          have ih1 := ih s
          simp only [NIO_Selector_ev_run, NIO_Selector_dispatch]
          rcases hrun : NIO_Selector_ev_run true rest s with ⟨r2, s2, ys2⟩
          rw [hrun] at ih1
          simp_all [countReady_cons_timer, readyMonitors_cons_timer]
      | wakeupFired =>
          have ih1 := ih (NIO_Selector_wakeup_callback s)
          simp only [NIO_Selector_ev_run, NIO_Selector_dispatch]
          rcases hrun : NIO_Selector_ev_run true rest (NIO_Selector_wakeup_callback s)
            with ⟨r2, s2, ys2⟩
          rw [hrun] at ih1
          simp_all [countReady_cons_wakeup, readyMonitors_cons_wakeup,
            NIO_Selector_wakeup_callback]
      | ready m r =>
          have ih1 := ih { s with ready_count := s.ready_count + 1 }
          simp only [NIO_Selector_ev_run, NIO_Selector_dispatch,
            NIO_Selector_monitor_callback, if_true]
          rcases hrun : NIO_Selector_ev_run true rest
            { s with ready_count := s.ready_count + 1 } with ⟨r2, s2, ys2⟩
          rw [hrun] at ih1
          simp_all [countReady_cons_ready, readyMonitors_cons_ready]
          omega

theorem ev_run_false_spec (events : List EngineEvent) :
    ∀ (s : NIO_Selector) (arr : List NIO_Monitor), s.ready_array = some arr →
    (NIO_Selector_ev_run false events s).1 = .ok () ∧
    (NIO_Selector_ev_run false events s).2.1.ready_count
      = s.ready_count + countReady events ∧
    (NIO_Selector_ev_run false events s).2.1.ready_array
      = some (arr ++ readyMonitors events) ∧
    (NIO_Selector_ev_run false events s).2.2 = [] := by
  induction events with
  | nil => intro s arr h; simp [NIO_Selector_ev_run, countReady, readyMonitors, h]
  | cons ev rest ih =>
      intro s arr h
      cases ev with
      | timerFired =>
          have ih1 := ih s arr h
          simp only [NIO_Selector_ev_run, NIO_Selector_dispatch]
          rcases hrun : NIO_Selector_ev_run false rest s with ⟨r2, s2, ys2⟩
          rw [hrun] at ih1
          simp_all [countReady_cons_timer, readyMonitors_cons_timer]
      | wakeupFired =>
          have ih1 := ih (NIO_Selector_wakeup_callback s) arr (by simpa [NIO_Selector_wakeup_callback] using h)
          simp only [NIO_Selector_ev_run, NIO_Selector_dispatch]
          rcases hrun : NIO_Selector_ev_run false rest (NIO_Selector_wakeup_callback s)
            with ⟨r2, s2, ys2⟩
          rw [hrun] at ih1
          simp_all [countReady_cons_wakeup, readyMonitors_cons_wakeup,
            NIO_Selector_wakeup_callback]
      | ready m r =>
          have ih1 := ih
            { s with ready_count := s.ready_count + 1,
                     ready_array := some (arr ++ [{ m with revents := r }]) }
            (arr ++ [{ m with revents := r }]) (by simp)
          simp only [NIO_Selector_ev_run, NIO_Selector_dispatch,
            NIO_Selector_monitor_callback, if_false, Bool.false_eq_true]
          rcases hrun : NIO_Selector_ev_run false rest
            { s with ready_count := s.ready_count + 1,
                     ready_array := some (arr ++ [{ m with revents := r }]) }
            with ⟨r2, s2, ys2⟩
          rw [hrun] at ih1
          simp_all [countReady_cons_ready, readyMonitors_cons_ready, h]
          omega

theorem run_true_spec (t : Option ℚ) (events : List EngineEvent) (s : NIO_Selector)
    (hev : s.ev_loop = true) :
    (NIO_Selector_run true t events s).1 = .ok (s.ready_count + countReady events) ∧
    (NIO_Selector_run true t events s).2.1.ready_array = s.ready_array ∧
    (NIO_Selector_run true t events s).2.1.ready_count = 0 ∧
    (NIO_Selector_run true t events s).2.1.selecting = false ∧
    (NIO_Selector_run true t events s).2.1.closed = s.closed ∧
    (NIO_Selector_run true t events s).2.2 = readyMonitors events := by
  cases t with
  | none =>
      have hspec := ev_run_true_spec events { s with selecting := true, timer_active := false }
      have hpres := ev_run_preserves true events { s with selecting := true, timer_active := false }
      simp only [NIO_Selector_run, hev]
      rcases hrun : NIO_Selector_ev_run true events
        { s with selecting := true, timer_active := false } with ⟨r2, s2, ys2⟩
      rw [hrun] at hspec hpres
      obtain ⟨h1, h2, h3, h4⟩ := hspec
      subst h1
      simp_all
  | some q =>
      have hspec := ev_run_true_spec events
        { s with selecting := true, timer_repeat := q + 1 / 10000, timer_active := true }
      have hpres := ev_run_preserves true events
        { s with selecting := true, timer_repeat := q + 1 / 10000, timer_active := true }
      simp only [NIO_Selector_run, hev]
      rcases hrun : NIO_Selector_ev_run true events
        { s with selecting := true, timer_repeat := q + 1 / 10000, timer_active := true }
        with ⟨r2, s2, ys2⟩
      rw [hrun] at hspec hpres
      obtain ⟨h1, h2, h3, h4⟩ := hspec
      subst h1
      simp_all

theorem run_false_spec (t : Option ℚ) (events : List EngineEvent) (s : NIO_Selector)
    (arr : List NIO_Monitor) (hev : s.ev_loop = true) (harr : s.ready_array = some arr) :
    (NIO_Selector_run false t events s).1 = .ok (s.ready_count + countReady events) ∧
    (NIO_Selector_run false t events s).2.1.ready_array
      = some (arr ++ readyMonitors events) ∧
    (NIO_Selector_run false t events s).2.1.ready_count = 0 ∧
    (NIO_Selector_run false t events s).2.1.selecting = false ∧
    (NIO_Selector_run false t events s).2.1.closed = s.closed ∧
    (NIO_Selector_run false t events s).2.2 = [] := by
  cases t with
  | none =>
      have hspec := ev_run_false_spec events
        { s with selecting := true, timer_active := false } arr (by simpa using harr)
      have hpres := ev_run_preserves false events { s with selecting := true, timer_active := false }
      simp only [NIO_Selector_run, hev]
      rcases hrun : NIO_Selector_ev_run false events
        { s with selecting := true, timer_active := false } with ⟨r2, s2, ys2⟩
      rw [hrun] at hspec hpres
      obtain ⟨h1, h2, h3, h4⟩ := hspec
      subst h1
      simp_all
  | some q =>
      have hspec := ev_run_false_spec events
        { s with selecting := true, timer_repeat := q + 1 / 10000, timer_active := true }
        arr (by simpa using harr)
      have hpres := ev_run_preserves false events
        { s with selecting := true, timer_repeat := q + 1 / 10000, timer_active := true }
      simp only [NIO_Selector_run, hev]
      rcases hrun : NIO_Selector_ev_run false events
        { s with selecting := true, timer_repeat := q + 1 / 10000, timer_active := true }
        with ⟨r2, s2, ys2⟩
      rw [hrun] at hspec hpres
      obtain ⟨h1, h2, h3, h4⟩ := hspec
      subst h1
      simp_all

/-- C1: on a call to `NIO_Selector_select_synchronized` (engine handle live,
`ready_count` zeroed and `ready_array` absent on entry, as every call site
establishes): with a block, the integer ready count is returned when it is
positive and `Qnil` otherwise; without a block, the accumulated array of
ready Monitors is returned when at least one handle became ready and `Qnil`
otherwise; and `ready_array` is `Qnil` again when the call returns, in every
case. -/
theorem select_synchronized_return_value (blockGiven : Bool) (timeout : Option ℚ)
    (events : List EngineEvent) (s : NIO_Selector)
    (hev : s.ev_loop = true) (hcnt : s.ready_count = 0) (hra : s.ready_array = none) :
    (NIO_Selector_select_synchronized blockGiven timeout events s).2.1.ready_array = none ∧
    (NIO_Selector_select_synchronized blockGiven timeout events s).1 =
      .ok (if blockGiven then
             (if 0 < countReady events then .count (countReady events) else .noActivity)
           else
             (if 0 < countReady events then .monitors (readyMonitors events)
              else .noActivity)) := by
  cases blockGiven with
  | true =>
      have hspec := run_true_spec timeout events s hev
      simp only [NIO_Selector_select_synchronized, if_true]
      rcases hrun : NIO_Selector_run true timeout events s with ⟨r, s2, ys⟩
      rw [hrun] at hspec
      obtain ⟨h1, h2, h3, h4, h5, h6⟩ := hspec
      subst h1
      by_cases hc : 0 < countReady events
      · simp_all
      · simp_all
  | false =>
      have hspec := run_false_spec timeout events { s with ready_array := some [] } []
        (by simpa using hev) (by simp)
      simp only [NIO_Selector_select_synchronized, Bool.false_eq_true, if_false]
      rcases hrun : NIO_Selector_run false timeout events { s with ready_array := some [] }
        with ⟨r, s2, ys⟩
      rw [hrun] at hspec
      obtain ⟨h1, h2, h3, h4, h5, h6⟩ := hspec
      subst h1
      by_cases hc : 0 < countReady events
      · simp_all
      · simp_all

/-- Witness for C1 at a concrete input: a fresh selector, no block, a finite
timeout and one ready handle. -/
theorem select_synchronized_return_value_witness :
    NIO_Selector_allocate.ev_loop = true ∧
    NIO_Selector_allocate.ready_count = 0 ∧
    NIO_Selector_allocate.ready_array = none ∧
    ((NIO_Selector_select_synchronized false (some 1)
        [EngineEvent.ready (NIO_Monitor_new 3 1) 1] NIO_Selector_allocate).2.1.ready_array
        = none ∧
     (NIO_Selector_select_synchronized false (some 1)
        [EngineEvent.ready (NIO_Monitor_new 3 1) 1] NIO_Selector_allocate).1 =
      .ok (if false then
             (if 0 < countReady [EngineEvent.ready (NIO_Monitor_new 3 1) 1] then
                .count (countReady [EngineEvent.ready (NIO_Monitor_new 3 1) 1])
              else .noActivity)
           else
             (if 0 < countReady [EngineEvent.ready (NIO_Monitor_new 3 1) 1] then
                .monitors (readyMonitors [EngineEvent.ready (NIO_Monitor_new 3 1) 1])
              else .noActivity))) :=
  ⟨rfl, rfl, rfl,
   select_synchronized_return_value false (some 1)
     [EngineEvent.ready (NIO_Monitor_new 3 1) 1] NIO_Selector_allocate rfl rfl rfl⟩

/-- C2: each handle that becomes ready during one engine iteration triggers
exactly one readiness event.  A single `NIO_Selector_monitor_callback`
increments `ready_count` by one, records the observed readiness flags on the
Monitor, and delivers that Monitor exactly once — to the block when one was
given, else by appending it to `ready_array`; and over a whole iteration
(an arbitrary event list, so no ordering among same-iteration handles is
assumed) `ready_count` grows by exactly the number of ready handles and the
delivered monitors are exactly the ready handles' monitors, once each. -/
theorem monitor_callback_exactly_once (m : NIO_Monitor) (r : Nat)
    (s : NIO_Selector) (events : List EngineEvent)
    (arr arr0 : List NIO_Monitor) :
    (NIO_Selector_monitor_callback true m r s =
       (.ok (), { s with ready_count := s.ready_count + 1 },
        [{ m with revents := r }])) ∧
    (s.ready_array = some arr →
       NIO_Selector_monitor_callback false m r s =
         (.ok (),
          { s with
              ready_count := s.ready_count + 1
              ready_array := some (arr ++ [{ m with revents := r }]) }, [])) ∧
    ((NIO_Selector_ev_run true events s).2.1.ready_count
        = s.ready_count + countReady events ∧
     (NIO_Selector_ev_run true events s).2.2 = readyMonitors events) ∧
    (s.ready_array = some arr0 →
       (NIO_Selector_ev_run false events s).2.1.ready_count
          = s.ready_count + countReady events ∧
       (NIO_Selector_ev_run false events s).2.1.ready_array
          = some (arr0 ++ readyMonitors events)) := by
  refine ⟨?_, ?_, ?_, ?_⟩
  · simp [NIO_Selector_monitor_callback]
  · intro h
    simp [NIO_Selector_monitor_callback, h]
  · have hspec := ev_run_true_spec events s
    exact ⟨hspec.2.1, hspec.2.2.2⟩
  · intro h
    have hspec := ev_run_false_spec events s arr0 h
    exact ⟨hspec.2.1, hspec.2.2.1⟩

/-- Witness for C2 at a concrete input: `selWithArray`, one concrete monitor
and the two-event iteration `twoEvents`. -/
theorem monitor_callback_exactly_once_witness :
    selWithArray.ready_array = some [] ∧
    ((NIO_Selector_monitor_callback true (NIO_Monitor_new 3 1) 5 selWithArray =
       (.ok (), { selWithArray with ready_count := selWithArray.ready_count + 1 },
        [{ NIO_Monitor_new 3 1 with revents := 5 }])) ∧
     (NIO_Selector_monitor_callback false (NIO_Monitor_new 3 1) 5 selWithArray =
       (.ok (),
        { selWithArray with
            ready_count := selWithArray.ready_count + 1
            ready_array := some ([] ++ [{ NIO_Monitor_new 3 1 with revents := 5 }]) },
        [])) ∧
     ((NIO_Selector_ev_run true twoEvents selWithArray).2.1.ready_count
        = selWithArray.ready_count + countReady twoEvents ∧
      (NIO_Selector_ev_run true twoEvents selWithArray).2.2
        = readyMonitors twoEvents) ∧
     ((NIO_Selector_ev_run false twoEvents selWithArray).2.1.ready_count
        = selWithArray.ready_count + countReady twoEvents ∧
      (NIO_Selector_ev_run false twoEvents selWithArray).2.1.ready_array
        = some ([] ++ readyMonitors twoEvents))) :=
  ⟨rfl,
   (monitor_callback_exactly_once (NIO_Monitor_new 3 1) 5 selWithArray twoEvents [] []).1,
   (monitor_callback_exactly_once (NIO_Monitor_new 3 1) 5 selWithArray twoEvents
      [] []).2.1 rfl,
   (monitor_callback_exactly_once (NIO_Monitor_new 3 1) 5 selWithArray twoEvents
      [] []).2.2.1,
   (monitor_callback_exactly_once (NIO_Monitor_new 3 1) 5 selWithArray twoEvents
      [] []).2.2.2 rfl⟩

/-- C3: `NIO_Selector_register_synchronized` raises `ArgumentError` and
leaves the whole selector (in particular the registration table) unchanged
when the handle is already registered; otherwise it creates a new Monitor
for the handle with the given interests, stores it in the table, and
returns it. -/
theorem register_synchronized_contract (io interests : Nat) (s : NIO_Selector)
    (m0 : NIO_Monitor) :
    (lookupTable s.selectables io = some m0 →
       NIO_Selector_register_synchronized io interests s =
         (.error (.raised (.ArgumentError "this IO is already registered with selector")),
          s)) ∧
    (lookupTable s.selectables io = none →
       NIO_Selector_register_synchronized io interests s =
         (.ok (NIO_Monitor_new io interests),
          { s with selectables :=
              insertTable s.selectables io (NIO_Monitor_new io interests) }) ∧
       NIO_Selector_is_registered io
         (NIO_Selector_register_synchronized io interests s).2 = true) := by
  constructor
  · intro h
    simp [NIO_Selector_register_synchronized, h]
  · intro h
    constructor
    · simp [NIO_Selector_register_synchronized, h]
    · simp [NIO_Selector_register_synchronized, h, NIO_Selector_is_registered,
        lookupTable_insertTable_self]

/-- Witness for C3 at concrete inputs: handle 3 is registered in `regSel`
(registering it again fails and changes nothing), handle 4 is not
(registering it stores and returns a fresh Monitor). -/
theorem register_synchronized_contract_witness :
    lookupTable regSel.selectables 3 = some (NIO_Monitor_new 3 1) ∧
    (NIO_Selector_register_synchronized 3 7 regSel =
       (.error (.raised (.ArgumentError "this IO is already registered with selector")),
        regSel)) ∧
    lookupTable regSel.selectables 4 = none ∧
    (NIO_Selector_register_synchronized 4 7 regSel =
       (.ok (NIO_Monitor_new 4 7),
        { regSel with selectables :=
            insertTable regSel.selectables 4 (NIO_Monitor_new 4 7) }) ∧
     NIO_Selector_is_registered 4
       (NIO_Selector_register_synchronized 4 7 regSel).2 = true) :=
  ⟨rfl,
   (register_synchronized_contract 3 7 regSel (NIO_Monitor_new 3 1)).1 rfl,
   rfl,
   (register_synchronized_contract 4 7 regSel (NIO_Monitor_new 3 1)).2 rfl⟩

/-- C8: `NIO_Selector_deregister_synchronized` on a registered handle
removes its Monitor from the table, invokes that Monitor's `close` with
`cancel_pending = false`, and returns the removed Monitor; on an
unregistered handle it returns `Qnil` without raising, without changing any
state and without invoking any Monitor close. -/
theorem deregister_synchronized_contract (io : Nat) (s : NIO_Selector)
    (m0 : NIO_Monitor) :
    (lookupTable s.selectables io = some m0 →
       NIO_Selector_deregister_synchronized io s =
         (.ok (some (NIO_Monitor_close false m0)),
          { s with selectables := deleteTable s.selectables io }) ∧
       NIO_Selector_is_registered io
         (NIO_Selector_deregister_synchronized io s).2 = false ∧
       (NIO_Monitor_close false m0).closeCancelPending = some false) ∧
    (lookupTable s.selectables io = none →
       NIO_Selector_deregister_synchronized io s = (.ok none, s)) := by
  constructor
  · intro h
    refine ⟨by simp [NIO_Selector_deregister_synchronized, h], ?_, rfl⟩
    simp [NIO_Selector_deregister_synchronized, h, NIO_Selector_is_registered,
      lookupTable_deleteTable_self]
  · intro h
    simp [NIO_Selector_deregister_synchronized, h]

/-- Witness for C8 at concrete inputs: deregistering registered handle 3 of
`regSel` and absent handle 4. -/
theorem deregister_synchronized_contract_witness :
    lookupTable regSel.selectables 3 = some (NIO_Monitor_new 3 1) ∧
    (NIO_Selector_deregister_synchronized 3 regSel =
       (.ok (some (NIO_Monitor_close false (NIO_Monitor_new 3 1))),
        { regSel with selectables := deleteTable regSel.selectables 3 }) ∧
     NIO_Selector_is_registered 3
       (NIO_Selector_deregister_synchronized 3 regSel).2 = false ∧
     (NIO_Monitor_close false (NIO_Monitor_new 3 1)).closeCancelPending = some false) ∧
    lookupTable regSel.selectables 4 = none ∧
    NIO_Selector_deregister_synchronized 4 regSel = (.ok none, regSel) :=
  ⟨rfl,
   (deregister_synchronized_contract 3 regSel (NIO_Monitor_new 3 1)).1 rfl,
   rfl,
   (deregister_synchronized_contract 4 regSel (NIO_Monitor_new 3 1)).2 rfl⟩

/-- C10: `register`, `deregister` and `registered?` touch no selector-owned
state but the registration table: the selector coming out of either mutator
is the input selector with only `selectables` replaced (so `closed`,
`selecting`, `ready_count`, `ready_array`, the engine handle, the timer and
the wakeup-channel fields are all untouched, in the success and in the
failure branch alike), and `registered?` is a function of the table alone. -/
theorem register_deregister_frame (io interests : Nat) (s t : NIO_Selector) :
    (NIO_Selector_register_synchronized io interests s).2 =
      { s with selectables :=
          (NIO_Selector_register_synchronized io interests s).2.selectables } ∧
    (NIO_Selector_deregister_synchronized io s).2 =
      { s with selectables :=
          (NIO_Selector_deregister_synchronized io s).2.selectables } ∧
    (s.selectables = t.selectables →
       NIO_Selector_is_registered io s = NIO_Selector_is_registered io t) := by
  refine ⟨?_, ?_, ?_⟩
  · cases hl : lookupTable s.selectables io <;>
      simp [NIO_Selector_register_synchronized, hl]
  · cases hl : lookupTable s.selectables io <;>
      simp [NIO_Selector_deregister_synchronized, hl]
  · intro h
    simp [NIO_Selector_is_registered, h]

/-- Witness for C10 at concrete inputs: `regSel` and a copy of it that
differs in the `selecting` flag but shares the table. -/
theorem register_deregister_frame_witness :
    regSel.selectables = ({ regSel with selecting := true } : NIO_Selector).selectables ∧
    ((NIO_Selector_register_synchronized 3 7 regSel).2 =
       { regSel with selectables :=
           (NIO_Selector_register_synchronized 3 7 regSel).2.selectables } ∧
     (NIO_Selector_deregister_synchronized 3 regSel).2 =
       { regSel with selectables :=
           (NIO_Selector_deregister_synchronized 3 regSel).2.selectables } ∧
     NIO_Selector_is_registered 3 regSel =
       NIO_Selector_is_registered 3 { regSel with selecting := true }) :=
  ⟨rfl,
   (register_deregister_frame 3 7 regSel { regSel with selecting := true }).1,
   (register_deregister_frame 3 7 regSel { regSel with selecting := true }).2.1,
   (register_deregister_frame 3 7 regSel { regSel with selecting := true }).2.2 rfl⟩

theorem wakeupN_spec (n : Nat) :
    ∀ s : NIO_Selector, s.closed = false →
      wakeupN n s = (.ok (), { s with wakeup_pipe := s.wakeup_pipe + n }) := by
  induction n with
  | zero => intro s h; simp [wakeupN]
  | succ k ih =>
      intro s h
      have h1 : NIO_Selector_wakeup s =
          (.ok (), { s with wakeup_pipe := s.wakeup_pipe + 1 }) := by
        simp [NIO_Selector_wakeup, h]
      have h2 := ih { s with wakeup_pipe := s.wakeup_pipe + 1 } (by simpa using h)
      simp only [wakeupN, h1, h2]
      congr 1
      congr 1
      omega

/-- C4: each `NIO_Selector_wakeup` call on an open selector writes exactly
one byte to the wakeup pipe, so `n ≥ 1` wakeup calls leave `n` pending
bytes; a single run of `NIO_Selector_wakeup_callback` then clears
`selecting` and drains the pipe to empty, so however many wakeups were
issued before the run loop observed them, the level-triggered read end is
quiet again after one interruption — not one interruption per byte. -/
theorem wakeup_coalescing (n : Nat) (s : NIO_Selector)
    (hclosed : s.closed = false) (_hn : 1 ≤ n) :
    NIO_Selector_wakeup s = (.ok (), { s with wakeup_pipe := s.wakeup_pipe + 1 }) ∧
    wakeupN n s = (.ok (), { s with wakeup_pipe := s.wakeup_pipe + n }) ∧
    NIO_Selector_wakeup_callback (wakeupN n s).2 =
      { s with
          selecting := false
          wakeup_pipe := 0 } ∧
    (NIO_Selector_wakeup_callback (wakeupN n s).2).wakeup_pipe = 0 := by
  have h1 : NIO_Selector_wakeup s =
      (.ok (), { s with wakeup_pipe := s.wakeup_pipe + 1 }) := by
    simp [NIO_Selector_wakeup, hclosed]
  have h2 := wakeupN_spec n s hclosed
  refine ⟨h1, h2, ?_, ?_⟩
  · rw [h2]
    simp [NIO_Selector_wakeup_callback]
  · rw [h2]
    simp [NIO_Selector_wakeup_callback]

/-- Witness for C4 at a concrete input: three wakeups on a fresh selector
coalesce into one drained interruption. -/
theorem wakeup_coalescing_witness :
    NIO_Selector_allocate.closed = false ∧
    1 ≤ 3 ∧
    (NIO_Selector_wakeup NIO_Selector_allocate =
       (.ok (), { NIO_Selector_allocate with
                    wakeup_pipe := NIO_Selector_allocate.wakeup_pipe + 1 }) ∧
     wakeupN 3 NIO_Selector_allocate =
       (.ok (), { NIO_Selector_allocate with
                    wakeup_pipe := NIO_Selector_allocate.wakeup_pipe + 3 }) ∧
     NIO_Selector_wakeup_callback (wakeupN 3 NIO_Selector_allocate).2 =
       { NIO_Selector_allocate with
           selecting := false
           wakeup_pipe := 0 } ∧
     (NIO_Selector_wakeup_callback (wakeupN 3 NIO_Selector_allocate).2).wakeup_pipe
       = 0) :=
  ⟨rfl, by omega, wakeup_coalescing 3 NIO_Selector_allocate rfl (by omega)⟩

/-- C7: `NIO_Selector_select` with a negative timeout raises `ArgumentError`
and returns with the lock state and the selector untouched — before the
critical section and before any engine iteration; a `nil` timeout and any
nonnegative timeout pass the guard into the locked select; and with a `nil`
timeout the run loop stops the timer, i.e. the engine waits with no
deadline. -/
theorem select_timeout_validation (tid : Nat) (blockGiven : Bool) (t : ℚ)
    (events : List EngineEvent) (ls : LockState) (s : NIO_Selector) :
    (t < 0 →
       NIO_Selector_select tid blockGiven (some t) events ls s =
         (.error (.raised (.ArgumentError "time interval must be positive")),
          ls, s, [])) ∧
    (NIO_Selector_select tid blockGiven none events ls s =
       NIO_Selector_select_locked tid blockGiven none events ls s) ∧
    (0 ≤ t →
       NIO_Selector_select tid blockGiven (some t) events ls s =
         NIO_Selector_select_locked tid blockGiven (some t) events ls s) ∧
    (s.ev_loop = true →
       (NIO_Selector_run blockGiven none events s).2.1.timer_active = false) := by
  refine ⟨?_, ?_, ?_, ?_⟩
  · intro h
    simp [NIO_Selector_select, negTimeout, h]
  · simp [NIO_Selector_select, negTimeout]
  · intro h
    simp [NIO_Selector_select, negTimeout, not_lt.mpr h]
  · intro hev
    have hpres := ev_run_preserves blockGiven events
      { s with selecting := true, timer_active := false }
    simp only [NIO_Selector_run, hev]
    rcases hrun : NIO_Selector_ev_run blockGiven events
      { s with selecting := true, timer_active := false } with ⟨r, s2, ys⟩
    rw [hrun] at hpres
    cases r <;> simp_all

/-- Witness for C7 at concrete inputs: timeout -1 is rejected with the
state unchanged; `nil` and 2 pass the guard; `nil` leaves the timer
stopped. -/
theorem select_timeout_validation_witness :
    (-1 : ℚ) < 0 ∧
    (0 : ℚ) ≤ 2 ∧
    NIO_Selector_allocate.ev_loop = true ∧
    (NIO_Selector_select 0 false (some (-1)) [] lock0 NIO_Selector_allocate =
       (.error (.raised (.ArgumentError "time interval must be positive")),
        lock0, NIO_Selector_allocate, [])) ∧
    (NIO_Selector_select 0 false none [] lock0 NIO_Selector_allocate =
       NIO_Selector_select_locked 0 false none [] lock0 NIO_Selector_allocate) ∧
    (NIO_Selector_select 0 false (some 2) [] lock0 NIO_Selector_allocate =
       NIO_Selector_select_locked 0 false (some 2) [] lock0 NIO_Selector_allocate) ∧
    (NIO_Selector_run false none [] NIO_Selector_allocate).2.1.timer_active = false :=
  ⟨by norm_num, by norm_num, rfl,
   (select_timeout_validation 0 false (-1) [] lock0 NIO_Selector_allocate).1
     (by norm_num),
   (select_timeout_validation 0 false 2 [] lock0 NIO_Selector_allocate).2.1,
   (select_timeout_validation 0 false 2 [] lock0 NIO_Selector_allocate).2.2.1
     (by norm_num),
   (select_timeout_validation 0 false 2 [] lock0 NIO_Selector_allocate).2.2.2 rfl⟩

theorem run_preserves_closed (b : Bool) (t : Option ℚ) (events : List EngineEvent)
    (s : NIO_Selector) : (NIO_Selector_run b t events s).2.1.closed = s.closed := by
  by_cases hev : s.ev_loop = false
  · simp [NIO_Selector_run, hev]
  · cases t with
    | none =>
        have hpres := ev_run_preserves b events
          { s with selecting := true, timer_active := false }
        simp only [NIO_Selector_run, hev]
        rcases hrun : NIO_Selector_ev_run b events
          { s with selecting := true, timer_active := false } with ⟨r, s2, ys⟩
        rw [hrun] at hpres
        cases r <;> simp_all
    | some q =>
        have hpres := ev_run_preserves b events
          { s with selecting := true, timer_repeat := q + 1 / 10000, timer_active := true }
        simp only [NIO_Selector_run, hev]
        rcases hrun : NIO_Selector_ev_run b events
          { s with selecting := true, timer_repeat := q + 1 / 10000, timer_active := true }
          with ⟨r, s2, ys⟩
        rw [hrun] at hpres
        cases r <;> simp_all

theorem select_sync_preserves_closed (b : Bool) (t : Option ℚ)
    (events : List EngineEvent) (s : NIO_Selector) :
    (NIO_Selector_select_synchronized b t events s).2.1.closed = s.closed := by
  cases b with
  | true =>
      have hclosed := run_preserves_closed true t events s
      simp only [NIO_Selector_select_synchronized, if_true]
      rcases hrun : NIO_Selector_run true t events s with ⟨r, s2, ys⟩
      rw [hrun] at hclosed
      cases r with
      | ok n =>
          by_cases hp : n > 0
          · simp_all
          · simp_all
      | error e => simp_all
  | false =>
      have hclosed := run_preserves_closed false t events
        { s with ready_array := some [] }
      simp only [NIO_Selector_select_synchronized, Bool.false_eq_true, if_false]
      rcases hrun : NIO_Selector_run false t events { s with ready_array := some [] }
        with ⟨r, s2, ys⟩
      rw [hrun] at hclosed
      cases r with
      | ok n =>
          by_cases hp : n > 0
          · cases hra : s2.ready_array <;> simp_all
          · simp_all
      | error e => simp_all

/-- C9: `close` never fails and is idempotent.  On a not-yet-closed selector
the shutdown path nulls the engine handle, closes both wakeup-channel
endpoints and sets `closed`; a second shutdown of any selector is the
identity (no error, no second endpoint close, no second engine destroy);
`closed?` reports true after any close; and no operation of the embedding —
register, deregister, wakeup, the wakeup and monitor callbacks, or a whole
synchronized select — ever writes `closed` back, so `closed` never returns
to false. -/
theorem close_idempotent_and_monotonic (s s2 : NIO_Selector) (io interests : Nat)
    (b : Bool) (t : Option ℚ) (events : List EngineEvent) (m : NIO_Monitor)
    (r : Nat) (hclosed : s.closed = false) :
    NIO_Selector_shutdown s =
      { s with
          ev_loop := false
          wakeup_reader_open := false
          wakeup_writer_open := false
          closed := true } ∧
    NIO_Selector_shutdown (NIO_Selector_shutdown s2) = NIO_Selector_shutdown s2 ∧
    (NIO_Selector_shutdown s2).closed = true ∧
    NIO_Selector_close s2 = (.ok (), NIO_Selector_shutdown s2) ∧
    NIO_Selector_closed (NIO_Selector_close s2).2 = true ∧
    (NIO_Selector_register_synchronized io interests s2).2.closed = s2.closed ∧
    (NIO_Selector_deregister_synchronized io s2).2.closed = s2.closed ∧
    (NIO_Selector_wakeup s2).2.closed = s2.closed ∧
    (NIO_Selector_wakeup_callback s2).closed = s2.closed ∧
    (NIO_Selector_monitor_callback b m r s2).2.1.closed = s2.closed ∧
    (NIO_Selector_select_synchronized b t events s2).2.1.closed = s2.closed := by
  refine ⟨?_, ?_, ?_, rfl, ?_, ?_, ?_, ?_, ?_, ?_, ?_⟩
  · by_cases he : s.ev_loop <;> simp [NIO_Selector_shutdown, hclosed, he]
  · by_cases he : s2.ev_loop <;> by_cases hc : s2.closed <;>
      simp [NIO_Selector_shutdown, he, hc]
  · by_cases he : s2.ev_loop <;> by_cases hc : s2.closed <;>
      simp [NIO_Selector_shutdown, he, hc]
  · by_cases he : s2.ev_loop <;> by_cases hc : s2.closed <;>
      simp [NIO_Selector_closed, NIO_Selector_close, NIO_Selector_shutdown, he, hc]
  · cases hl : lookupTable s2.selectables io <;>
      simp [NIO_Selector_register_synchronized, hl]
  · cases hl : lookupTable s2.selectables io <;>
      simp [NIO_Selector_deregister_synchronized, hl]
  · by_cases hc : s2.closed <;> simp [NIO_Selector_wakeup, hc]
  · simp [NIO_Selector_wakeup_callback]
  · by_cases hb : b
    · simp [NIO_Selector_monitor_callback, hb]
    · simp only [NIO_Selector_monitor_callback, hb, if_false, Bool.false_eq_true]
      cases hra : s2.ready_array <;> simp [hra]
  · exact select_sync_preserves_closed b t events s2

/-- Witness for C9 at concrete inputs: a fresh selector for the first close
and an already-closed one for the idempotence and monotonicity parts. -/
theorem close_idempotent_and_monotonic_witness :
    NIO_Selector_allocate.closed = false ∧
    (NIO_Selector_shutdown NIO_Selector_allocate =
       { NIO_Selector_allocate with
           ev_loop := false
           wakeup_reader_open := false
           wakeup_writer_open := false
           closed := true } ∧
     NIO_Selector_shutdown (NIO_Selector_shutdown closedSel) =
       NIO_Selector_shutdown closedSel ∧
     (NIO_Selector_shutdown closedSel).closed = true ∧
     NIO_Selector_close closedSel = (.ok (), NIO_Selector_shutdown closedSel) ∧
     NIO_Selector_closed (NIO_Selector_close closedSel).2 = true ∧
     (NIO_Selector_register_synchronized 3 7 closedSel).2.closed = closedSel.closed ∧
     (NIO_Selector_deregister_synchronized 3 closedSel).2.closed = closedSel.closed ∧
     (NIO_Selector_wakeup closedSel).2.closed = closedSel.closed ∧
     (NIO_Selector_wakeup_callback closedSel).closed = closedSel.closed ∧
     (NIO_Selector_monitor_callback true (NIO_Monitor_new 3 1) 5 closedSel).2.1.closed
       = closedSel.closed ∧
     (NIO_Selector_select_synchronized true none [] closedSel).2.1.closed
       = closedSel.closed) :=
  ⟨rfl,
   close_idempotent_and_monotonic NIO_Selector_allocate closedSel 3 7 true none []
     (NIO_Monitor_new 3 1) 5 rfl⟩

/-- Counterexample to C5 as stated: on an already-closed selector, `register`
neither fails nor is a no-op — it succeeds and mutates the registration
table, because `NIO_Selector_register_synchronized` performs no closed
check. -/
theorem register_after_close_not_noop :
    NIO_Selector_closed closedSel = true ∧
    (NIO_Selector_register_synchronized 5 1 closedSel).1 =
      .ok (NIO_Monitor_new 5 1) ∧
    (NIO_Selector_register_synchronized 5 1 closedSel).2.selectables ≠
      closedSel.selectables := by
  refine ⟨rfl, rfl, ?_⟩
  decide

/-- C5 amended: after `close()`, `wakeup` fails with the Closed (`IOError`)
error and `close` is a no-op, but `register` and `select` perform no closed
check: `register` on an unregistered handle succeeds and stores a new
Monitor in the table, and a synchronized `select` proceeds into the run
loop and reaches the engine calls with the nulled engine handle (undefined
behavior on the destroyed notification-engine handle). -/
theorem after_close_behavior (s : NIO_Selector) (io interests : Nat) (b : Bool)
    (t : Option ℚ) (events : List EngineEvent)
    (hclosed : s.closed = true) (hloop : s.ev_loop = false) :
    NIO_Selector_wakeup s = (.error (.raised (.IOError "selector is closed")), s) ∧
    NIO_Selector_close s = (.ok (), s) ∧
    (lookupTable s.selectables io = none →
       (NIO_Selector_register_synchronized io interests s).1 =
         .ok (NIO_Monitor_new io interests) ∧
       (NIO_Selector_register_synchronized io interests s).2.selectables =
         insertTable s.selectables io (NIO_Monitor_new io interests)) ∧
    (NIO_Selector_select_synchronized b t events s).1 =
      .error (.undefinedBehavior "engine handle is null") := by
  refine ⟨?_, ?_, ?_, ?_⟩
  · simp [NIO_Selector_wakeup, hclosed]
  · simp [NIO_Selector_close, NIO_Selector_shutdown, hclosed, hloop]
  · intro h
    simp [NIO_Selector_register_synchronized, h]
  · cases b <;> simp [NIO_Selector_select_synchronized, NIO_Selector_run, hloop]

/-- Witness for the amended C5 at a concrete input: the closed selector
`closedSel` and the unregistered handle 5. -/
theorem after_close_behavior_witness :
    closedSel.closed = true ∧
    closedSel.ev_loop = false ∧
    lookupTable closedSel.selectables 5 = none ∧
    (NIO_Selector_wakeup closedSel =
       (.error (.raised (.IOError "selector is closed")), closedSel) ∧
     NIO_Selector_close closedSel = (.ok (), closedSel) ∧
     ((NIO_Selector_register_synchronized 5 1 closedSel).1 =
        .ok (NIO_Monitor_new 5 1) ∧
      (NIO_Selector_register_synchronized 5 1 closedSel).2.selectables =
        insertTable closedSel.selectables 5 (NIO_Monitor_new 5 1)) ∧
     (NIO_Selector_select_synchronized false none [] closedSel).1 =
       .error (.undefinedBehavior "engine handle is null")) :=
  ⟨rfl, rfl, rfl,
   (after_close_behavior closedSel 5 1 false none [] rfl rfl).1,
   (after_close_behavior closedSel 5 1 false none [] rfl rfl).2.1,
   (after_close_behavior closedSel 5 1 false none [] rfl rfl).2.2.1 rfl,
   (after_close_behavior closedSel 5 1 false none [] rfl rfl).2.2.2⟩

/-- C6 (code bug, evaluated at the failing input): when the calling thread
is already the recorded `lock_holder` — thread 0 here, running an operation
that returns 42 and leaves the state (7) unchanged —
`NIO_Selector_synchronize` runs the operation but hands the caller an
unspecified value (`none` in the embedding) instead of the operation's
result, because the C function's reentrant branch executes `func(args);`
and then falls off the end of a non-void function with no return statement.
The same operation run through the locking path (no recorded holder) does
deliver its result, `some 42`. -/
theorem synchronize_reentrant_drops_result :
    NIO_Selector_synchronize 0 (fun st : Nat => ((Except.ok 42 : ExecResult Nat), st))
        { lock_holder := some 0, mutex_locked := true } 7 =
      (Except.ok none, { lock_holder := some 0, mutex_locked := true }, 7) ∧
    NIO_Selector_synchronize 0 (fun st : Nat => ((Except.ok 42 : ExecResult Nat), st))
        lock0 7 =
      (Except.ok (some 42), { lock_holder := none, mutex_locked := false }, 7) ∧
    (some 42 : Option Nat) ≠ none := by
  refine ⟨rfl, rfl, by simp⟩
